import Mathlib

/-!
Shallow embedding of the ValuItCalculator valuation engine
(src/ValuItCalculator/models/{dcf,lbo,comparable_company,asset_based}.py and
src/ValuItCalculator/utils/financial_calculations.py), with theorems checking
the natural-language specification against the code.

Conventions of the embedding:
* Python floats are modelled by exact rationals (`ℚ`); IEEE rounding is not
  modelled.
* A `financial_data` dict (metric name → ordered dict of period → value) is
  modelled as an association list from metric name to the ordered list of its
  values; a metric that is absent from the dict and a metric that maps to an
  empty dict behave identically in the source (`'m' in d and d['m']` is false
  in both cases), and both are distinguished here: a missing key is simply not
  in the association list, an empty dict is the empty list.
* Code that can raise (indexing `[-1]` into a possibly-empty list, an unbound
  name) is modelled with `Option`/`Except`.
-/

namespace ValuIt

/-- A financial dataset: metric name ↦ ordered list of period values
(most recent first, matching the positional `list(d[m].values())[0]` reads). -/
abbrev Dataset := List (String × List ℚ)

/-- Association-list lookup of a metric, mirroring Python `d[m]` guarded by
`'m' in d`. -/
def lookupMetric : Dataset → String → Option (List ℚ)
  | [], _ => none
  | (k, vs) :: rest, m => if k = m then some vs else lookupMetric rest m

/-- The shared getter pattern of every model:
`if m in financial_data and financial_data[m]: return list(financial_data[m].values())[0]`,
else `None`.  Returns the first (most recent) value when the metric is present
with a non-empty mapping. -/
def getMetric (d : Dataset) (m : String) : Option ℚ :=
  match lookupMetric d m with
  | some (v :: _) => some v
  | _ => none

/-! ## DCF model (src/ValuItCalculator/models/dcf.py) -/

/-- `DCFModel.run_valuation` lines 38-56: resolve the base free cash flow.
Direct `fcf` → else `ebitda * 0.6` → else `(revenue * 0.20) * 0.6`
→ else the literal default 1000000. -/
def resolveBaseFcf (d : Dataset) : ℚ :=
  match getMetric d "fcf" with
  | some v => v
  | none =>
    match getMetric d "ebitda" with
    | some e => e * 0.6
    | none =>
      match getMetric d "revenue" with
      | some r => (r * 0.20) * 0.6
      | none => 1000000

/-- `DCFModel._project_fcf`: iterate `current_fcf = current_fcf * (1 + growth_rate)`
`forecast_years` times, collecting each value in order. -/
def projectFcf (g : ℚ) : ℚ → ℕ → List ℚ
  | _, 0 => []
  | cur, n + 1 => cur * (1 + g) :: projectFcf g (cur * (1 + g)) n

/-- The loop of `DCFModel._calculate_present_values`:
`for i, fcf in enumerate(fcf_forecast): pv = fcf / ((1 + wacc) ** (i + 1))`,
with `i` made an explicit starting index. -/
def discountFrom (w : ℚ) : ℕ → List ℚ → List ℚ
  | _, [] => []
  | i, f :: rest => f / (1 + w) ^ (i + 1) :: discountFrom w (i + 1) rest

/-- `DCFModel._calculate_present_values` (enumeration starts at index 0). -/
def presentValues (w : ℚ) (fcfs : List ℚ) : List ℚ :=
  discountFrom w 0 fcfs

/-- The result dictionary of `DCFModel.run_valuation` (the `dcf_details`
sensitivity grid is omitted: no claim refers to it). -/
structure DCFResult where
  enterprise_value : ℚ
  equity_value : ℚ
  base_fcf : ℚ
  fcf_forecast : List ℚ
  present_values : List ℚ
  terminal_value : ℚ
  pv_terminal_value : ℚ
  debt : ℚ
  cash : ℚ
  deriving DecidableEq, Repr

/-- `DCFModel.run_valuation` (lines 30-98).  `fcf_forecast[-1]` raises
`IndexError` when `forecast_years = 0`, hence the `Option`: the run succeeds
exactly when the forecast list is non-empty.  `_calculate_terminal_value`
(line 210) divides by `wacc - terminal_growth_rate` with no guard; the model
contains no parameter validation of any kind. -/
def dcfRun (d : Dataset) (g w tg : ℚ) (n : ℕ) : Option DCFResult :=
  let base := resolveBaseFcf d
  let fcfs := projectFcf g base n
  (fcfs.getLast?).map (fun lastF =>
    let pvs := presentValues w fcfs
    let tv := lastF * (1 + tg) / (w - tg)
    let pvTv := tv / (1 + w) ^ n
    let ev := pvs.sum + pvTv
    let debt := (getMetric d "total_debt").getD 0
    let cash := (getMetric d "cash").getD 0
    ⟨ev, ev - debt + cash, base, fcfs, pvs, tv, pvTv, debt, cash⟩)

/-! ## LBO model (src/ValuItCalculator/models/lbo.py) -/

/-- `LBOModel.run_valuation` lines 42-48: resolve the base EBITDA.
Direct `ebitda` → else `revenue * 0.2` → else the literal default 100000000. -/
def resolveBaseEbitda (d : Dataset) : ℚ :=
  match getMetric d "ebitda" with
  | some e => e
  | none =>
    match getMetric d "revenue" with
    | some r => r * 0.2
    | none => 100000000

/-- `LBOModel._calculate_entry_multiple` (lines 160-179).  The `base_ebitda`
argument is accepted and ignored, as in the source. -/
def calculateEntryMultiple (targetIrr baseEbitda : ℚ) : ℚ :=
  if targetIrr > 0.25 then 6.0
  else if targetIrr > 0.20 then 7.0
  else if targetIrr > 0.15 then 8.0
  else 9.0

/-- The loop of `LBOModel._project_ebitda`:
`for year in range(1, exit_year + 1)`, growth 10% while `year <= 2`,
5% afterwards; `remaining` counts the iterations still to run. -/
def projectEbitdaFrom : ℚ → ℕ → ℕ → List ℚ
  | _, _, 0 => []
  | cur, year, remaining + 1 =>
    let rate : ℚ := if year ≤ 2 then 0.10 else 0.05
    cur * (1 + rate) :: projectEbitdaFrom (cur * (1 + rate)) (year + 1) remaining

/-- `LBOModel._project_ebitda` (lines 181-206). -/
def projectEbitda (base : ℚ) (exitYear : ℕ) : List ℚ :=
  projectEbitdaFrom base 1 exitYear

/-- The `lbo_details` fields of `LBOModel.run_valuation` needed by the claims.
`irr` and `irr_sensitivity` (a fractional real power of the equity multiple)
are omitted: no claim refers to them. -/
structure LBOResult where
  enterprise_value : ℚ
  equity_value : ℚ
  base_ebitda : ℚ
  entry_multiple : ℚ
  purchase_price : ℚ
  new_debt : ℚ
  new_equity : ℚ
  exit_ebitda : ℚ
  exit_value : ℚ
  exit_debt : ℚ
  exit_equity : ℚ
  equity_multiple : ℚ
  max_debt : ℚ
  deriving DecidableEq, Repr

/-- The part of `LBOModel.run_valuation` (lines 50-110) that runs once
`exit_ebitda = ebitda_projection[-1]` has been read successfully: purchase
price from the entry multiple, 70/30 capital structure, linear debt paydown,
exit equity and the returns. -/
def lboFinish (d : Dataset) (exitYear : ℕ) (exitMultiple targetIrr : ℚ)
    (exitEbitda : ℚ) : LBOResult :=
  let baseEbitda := resolveBaseEbitda d
  let entryMultiple := calculateEntryMultiple targetIrr baseEbitda
  let purchasePrice := entryMultiple * baseEbitda
  let newDebt := purchasePrice * 0.7
  let newEquity := purchasePrice * 0.3
  let exitValue := exitEbitda * exitMultiple
  let annualDebtPayment := newDebt / (exitYear : ℚ)
  let exitDebt := newDebt - annualDebtPayment * (exitYear : ℚ)
  let exitEquity := exitValue - exitDebt
  let equityMultiple := exitEquity / newEquity
  let maxDebt := baseEbitda * 5.0
  ⟨purchasePrice, newEquity, baseEbitda, entryMultiple, purchasePrice,
   newDebt, newEquity, exitEbitda, exitValue, exitDebt, exitEquity,
   equityMultiple, maxDebt⟩

/-- `LBOModel.run_valuation` (lines 28-110).  `ebitda_projection[-1]` raises
`IndexError` when `exit_year = 0` (line 68, reached before the division by
`exit_year` on line 72), hence the `Option`: the run succeeds exactly when
the EBITDA projection is non-empty. -/
def lboRun (d : Dataset) (exitYear : ℕ) (exitMultiple targetIrr : ℚ) :
    Option LBOResult :=
  ((projectEbitda (resolveBaseEbitda d) exitYear).getLast?).map
    (lboFinish d exitYear exitMultiple targetIrr)

/-! ## Comparable company model (src/ValuItCalculator/models/comparable_company.py) -/

/-- The result of `ComparableCompanyModel.run_valuation` (the externally
fetched `comparable_companies` list is omitted: it is an external collaborator
and no claim refers to it). -/
structure CompResult where
  enterprise_value : ℚ
  equity_value : ℚ
  primary_method : String
  ebitda : Option ℚ
  net_income : Option ℚ
  revenue : Option ℚ
  debt : ℚ
  cash : ℚ
  ev_ebitda_valuation : Option ℚ
  pe_valuation : Option ℚ
  ev_revenue_valuation : Option ℚ
  deriving DecidableEq, Repr

/-- `ComparableCompanyModel.run_valuation` (lines 34-98): candidate values per
available metric, then the primary method chosen by the if/elif chain of
lines 62-79 (EV/EBITDA first, then EV/Revenue, then P/E, else zeros). -/
def compRun (d : Dataset) (evEbitdaMultiple peRatio evRevenueMultiple : ℚ) :
    CompResult :=
  let ebitda := getMetric d "ebitda"
  let netIncome := getMetric d "net_income"
  let revenue := getMetric d "revenue"
  let debt := (getMetric d "total_debt").getD 0
  let cash := (getMetric d "cash").getD 0
  let evEbitdaVal := ebitda.map (fun e => e * evEbitdaMultiple)
  let peVal := netIncome.map (fun x => x * peRatio)
  let evRevenueVal := revenue.map (fun r => r * evRevenueMultiple)
  let sel : ℚ × ℚ × String :=
    match evEbitdaVal, evRevenueVal, peVal with
    | some v, _, _ => (v, v - debt + cash, "EV/EBITDA")
    | none, some v, _ => (v, v - debt + cash, "EV/Revenue")
    | none, none, some v => (v + debt - cash, v, "P/E")
    | none, none, none => (0, 0, "N/A")
  ⟨sel.1, sel.2.1, sel.2.2, ebitda, netIncome, revenue, debt, cash,
   evEbitdaVal, peVal, evRevenueVal⟩

/-! ## Asset-based model (src/ValuItCalculator/models/asset_based.py) -/

/-- `AssetBasedModel._get_total_liabilities` (lines 90-107): direct value
→ else `1.5 × total_debt` → else `None`. -/
def getTotalLiabilitiesDirect (d : Dataset) : Option ℚ :=
  match getMetric d "total_liabilities" with
  | some v => some v
  | none =>
    match getMetric d "total_debt" with
    | some debt => some (debt * 1.5)
    | none => none

/-- The result of `AssetBasedModel.run_valuation`. -/
structure AssetResult where
  enterprise_value : ℚ
  equity_value : ℚ
  total_assets : ℚ
  total_liabilities : ℚ
  book_equity : ℚ
  asset_discount : ℚ
  adjusted_assets : ℚ
  adjusted_equity : ℚ
  deriving DecidableEq, Repr

/-- `AssetBasedModel.run_valuation` (lines 24-76), preserving the statement
order of the source: direct reads, the two back-calculations from equity,
then the literal defaults (1000000 assets, 60% liability ratio), then the
derived quantities. -/
def assetRun (d : Dataset) (assetDiscount : ℚ) : AssetResult :=
  let ta0 := getMetric d "total_assets"
  let tl0 := getTotalLiabilitiesDirect d
  let eq0 := getMetric d "equity"
  let ta1 :=
    match ta0 with
    | some a => some a
    | none =>
      match eq0, tl0 with
      | some e, some l => some (e + l)
      | _, _ => none
  let tl1 :=
    match tl0 with
    | some l => some l
    | none =>
      match eq0, ta1 with
      | some e, some a => some (a - e)
      | _, _ => none
  let totalAssets := ta1.getD 1000000
  let totalLiabilities :=
    match tl1 with
    | some l => l
    | none => totalAssets * 0.6
  let bookEquity := totalAssets - totalLiabilities
  let adjustedAssets := totalAssets * (1 - assetDiscount)
  let adjustedEquity := adjustedAssets - totalLiabilities
  ⟨adjustedAssets, adjustedEquity, totalAssets, totalLiabilities, bookEquity,
   assetDiscount, adjustedAssets, adjustedEquity⟩

/-! ## FinancialCalculations.calculate_enterprise_value
(src/ValuItCalculator/utils/financial_calculations.py, lines 83-101) -/

/-- Python name resolution for a scalar name read inside
`calculate_enterprise_value`: the local scope binds only the parameters
`pv_fcf`, `terminal_value`, `final_year`; the module level of
financial_calculations.py binds only `np`, `pd` and the class itself, none of
them a scalar named `discount_rate`. -/
def resolveName (env : List (String × ℚ)) (x : String) : Option ℚ :=
  match env with
  | [] => none
  | (k, v) :: rest => if k = x then some v else resolveName rest x

/-- `FinancialCalculations.calculate_enterprise_value`.  Its first statement
(line 96) evaluates `terminal_value / ((1 + discount_rate) ** final_year)`,
where `discount_rate` is a free name bound nowhere in scope: the lookup fails
and every call raises `NameError` before anything is computed. -/
def calculateEnterpriseValue (pv_fcf : List ℚ) (terminal_value : ℚ)
    (final_year : ℕ) : Except String ℚ :=
  let env : List (String × ℚ) :=
    [("terminal_value", terminal_value), ("final_year", (final_year : ℚ))]
  match resolveName env "discount_rate" with
  | none => Except.error "NameError: name discount_rate is not defined"
  | some discountRate =>
    Except.ok (pv_fcf.sum + terminal_value / (1 + discountRate) ^ final_year)

/-! ## Concrete datasets and derived closed forms used in the verification -/

/-- The spec scenario dataset `{fcf: {'2023': 100}}`. -/
def dsFcf100 : Dataset := [("fcf", [100])]

/-- The spec scenario dataset with only `revenue = 200`. -/
def dsRev200 : Dataset := [("revenue", [200])]

/-- Partial geometric sum `x + x^2 + ... + x^n` (proof-side closed form for
the discounted forecast sum). -/
def geomSum (x : ℚ) : ℕ → ℚ
  | 0 => 0
  | n + 1 => geomSum x n + x ^ (n + 1)

/-- Proof-side closed form of the DCF enterprise value for
`forecast_years = m + 1`:
`base * (geomSum x m + x^(m+1) * (1+w)/(w-tg))` with `x = (1+g)/(1+w)`. -/
def evClosed (base g w tg : ℚ) (m : ℕ) : ℚ :=
  base * (geomSum ((1 + g) / (1 + w)) m
    + ((1 + g) / (1 + w)) ^ (m + 1) * ((1 + w) / (w - tg)))

/-! ## Helper lemmas -/

lemma geomSum_succ_left (x : ℚ) (n : ℕ) :
    geomSum x (n + 1) = x * (1 + geomSum x n) := by
  induction n with
  | zero => simp [geomSum]
  | succ n ih =>
    calc geomSum x (n + 2) = geomSum x (n + 1) + x ^ (n + 2) := rfl
      _ = x * (1 + geomSum x n) + x ^ (n + 2) := by rw [ih]
      _ = x * (1 + (geomSum x n + x ^ (n + 1))) := by ring
      _ = x * (1 + geomSum x (n + 1)) := rfl

lemma geomSum_nonneg (x : ℚ) (hx : 0 ≤ x) (n : ℕ) : 0 ≤ geomSum x n := by
  induction n with
  | zero => simp [geomSum]
  | succ n ih => exact add_nonneg ih (pow_nonneg hx _)

lemma geomSum_le_geomSum (x y : ℚ) (hx : 0 ≤ x) (hxy : x ≤ y) (n : ℕ) :
    geomSum x n ≤ geomSum y n := by
  induction n with
  | zero => simp [geomSum]
  | succ n ih => exact add_le_add ih (pow_le_pow_left₀ hx hxy _)

/-- The last element of a non-empty FCF forecast is `base * (1+g)^n`. -/
lemma projectFcf_getLast (g : ℚ) (n : ℕ) :
    ∀ cur : ℚ,
      (projectFcf g cur (n + 1)).getLast? = some (cur * (1 + g) ^ (n + 1)) := by
  induction n with
  | zero => intro cur; simp [projectFcf, pow_one]
  | succ n ih =>
    intro cur
    have h2 : projectFcf g (cur * (1 + g)) (n + 1)
        = cur * (1 + g) * (1 + g) :: projectFcf g (cur * (1 + g) * (1 + g)) n := rfl
    rw [show projectFcf g cur (n + 2)
        = cur * (1 + g) :: projectFcf g (cur * (1 + g)) (n + 1) from rfl,
      h2, List.getLast?_cons_cons, ← h2, ih]
    congr 1
    ring

/-- Closed form of the discounted-forecast sum. -/
lemma sum_discount_projectFcf (g w : ℚ) (hw : (1 : ℚ) + w ≠ 0) (n : ℕ) :
    ∀ (cur : ℚ) (i : ℕ),
      (discountFrom w i (projectFcf g cur n)).sum
        = cur * geomSum ((1 + g) / (1 + w)) n / (1 + w) ^ i := by
  induction n with
  | zero => intro cur i; simp [projectFcf, discountFrom, geomSum]
  | succ n ih =>
    intro cur i
    rw [show projectFcf g cur (n + 1)
        = cur * (1 + g) :: projectFcf g (cur * (1 + g)) n from rfl,
      show discountFrom w i (cur * (1 + g) :: projectFcf g (cur * (1 + g)) n)
        = cur * (1 + g) / (1 + w) ^ (i + 1)
            :: discountFrom w (i + 1) (projectFcf g (cur * (1 + g)) n) from rfl,
      List.sum_cons, ih (cur * (1 + g)) (i + 1), geomSum_succ_left]
    have hpow : ((1 : ℚ) + w) ^ i ≠ 0 := pow_ne_zero _ hw
    field_simp
    ring

/-- For a positive number of forecast years the DCF run succeeds, and every
field of the result is the stated expression. -/
lemma dcfRun_succ (d : Dataset) (g w tg : ℚ) (m : ℕ) :
    dcfRun d g w tg (m + 1) = some
      ⟨(presentValues w (projectFcf g (resolveBaseFcf d) (m + 1))).sum
          + resolveBaseFcf d * (1 + g) ^ (m + 1) * (1 + tg) / (w - tg)
            / (1 + w) ^ (m + 1),
        (presentValues w (projectFcf g (resolveBaseFcf d) (m + 1))).sum
          + resolveBaseFcf d * (1 + g) ^ (m + 1) * (1 + tg) / (w - tg)
            / (1 + w) ^ (m + 1)
          - (getMetric d "total_debt").getD 0 + (getMetric d "cash").getD 0,
        resolveBaseFcf d,
        projectFcf g (resolveBaseFcf d) (m + 1),
        presentValues w (projectFcf g (resolveBaseFcf d) (m + 1)),
        resolveBaseFcf d * (1 + g) ^ (m + 1) * (1 + tg) / (w - tg),
        resolveBaseFcf d * (1 + g) ^ (m + 1) * (1 + tg) / (w - tg)
          / (1 + w) ^ (m + 1),
        (getMetric d "total_debt").getD 0,
        (getMetric d "cash").getD 0⟩ := by
  simp only [dcfRun, projectFcf_getLast, Option.map_some']

/-- The enterprise value of a successful DCF run equals its closed form. -/
lemma ev_closed_eq (base g w tg : ℚ) (m : ℕ) (hw : (1 : ℚ) + w ≠ 0)
    (hd : w - tg ≠ 0) :
    (presentValues w (projectFcf g base (m + 1))).sum
        + base * (1 + g) ^ (m + 1) * (1 + tg) / (w - tg) / (1 + w) ^ (m + 1)
      = evClosed base g w tg m := by
  rw [presentValues, sum_discount_projectFcf g w hw (m + 1) base 0, evClosed,
    show geomSum ((1 + g) / (1 + w)) (m + 1)
      = geomSum ((1 + g) / (1 + w)) m + ((1 + g) / (1 + w)) ^ (m + 1) from rfl,
    div_pow]
  have hpow : ((1 : ℚ) + w) ^ (m + 1) ≠ 0 := pow_ne_zero _ hw
  field_simp
  ring

lemma evClosed_pos (base g w tg : ℚ) (m : ℕ) (hb : 0 < base) (hg : -1 < g)
    (h0w : 0 < w) (htw : tg < w) : 0 < evClosed base g w tg m := by
  have hx : 0 < (1 + g) / (1 + w) := div_pos (by linarith) (by linarith)
  have h1 : 0 ≤ geomSum ((1 + g) / (1 + w)) m := geomSum_nonneg _ hx.le _
  have h2 : 0 < ((1 + g) / (1 + w)) ^ (m + 1) := pow_pos hx _
  have h3 : 0 < (1 + w) / (w - tg) := div_pos (by linarith) (by linarith)
  have h4 := mul_pos h2 h3
  exact mul_pos hb (by linarith)

lemma evClosed_lt_evClosed (base g g' w tg : ℚ) (m : ℕ) (hb : 0 < base)
    (hg : -1 < g) (hgg : g < g') (h0w : 0 < w) (htw : tg < w) :
    evClosed base g w tg m < evClosed base g' w tg m := by
  have hw1 : (0 : ℚ) < 1 + w := by linarith
  have hx : 0 < (1 + g) / (1 + w) := div_pos (by linarith) hw1
  have hxx : (1 + g) / (1 + w) < (1 + g') / (1 + w) :=
    (div_lt_div_iff_of_pos_right hw1).mpr (by linarith)
  have h1 : geomSum ((1 + g) / (1 + w)) m ≤ geomSum ((1 + g') / (1 + w)) m :=
    geomSum_le_geomSum _ _ hx.le hxx.le _
  have h2 : ((1 + g) / (1 + w)) ^ (m + 1) < ((1 + g') / (1 + w)) ^ (m + 1) :=
    pow_lt_pow_left₀ hxx hx.le (Nat.succ_ne_zero m)
  have h3 : 0 < (1 + w) / (w - tg) := div_pos hw1 (by linarith)
  exact mul_lt_mul_of_pos_left
    (add_lt_add_of_le_of_lt h1 (mul_lt_mul_of_pos_right h2 h3)) hb

/-- A non-empty EBITDA projection has a last element. -/
lemma projectEbitdaFrom_getLast_isSome (m : ℕ) :
    ∀ (cur : ℚ) (y : ℕ),
      ∃ L, (projectEbitdaFrom cur y (m + 1)).getLast? = some L := by
  induction m with
  | zero =>
    intro cur y
    exact ⟨cur * (1 + if y ≤ 2 then (0.10 : ℚ) else 0.05),
      by simp [projectEbitdaFrom, List.getLast?_singleton]⟩
  | succ m ih =>
    intro cur y
    have h1 : projectEbitdaFrom cur y (m + 2)
        = cur * (1 + if y ≤ 2 then (0.10 : ℚ) else 0.05)
            :: projectEbitdaFrom (cur * (1 + if y ≤ 2 then (0.10 : ℚ) else 0.05))
              (y + 1) (m + 1) := rfl
    obtain ⟨L, hL⟩ :=
      ih (cur * (1 + if y ≤ 2 then (0.10 : ℚ) else 0.05)) (y + 1)
    refine ⟨L, ?_⟩
    have h2 : projectEbitdaFrom
        (cur * (1 + if y ≤ 2 then (0.10 : ℚ) else 0.05)) (y + 1) (m + 1)
        = (cur * (1 + if y ≤ 2 then (0.10 : ℚ) else 0.05))
            * (1 + if y + 1 ≤ 2 then (0.10 : ℚ) else 0.05)
            :: projectEbitdaFrom
              ((cur * (1 + if y ≤ 2 then (0.10 : ℚ) else 0.05))
                * (1 + if y + 1 ≤ 2 then (0.10 : ℚ) else 0.05))
              (y + 2) m := rfl
    rw [h1, h2, List.getLast?_cons_cons, ← h2, hL]

/-- Full evaluation of the DCF run on the spec scenario
(`{fcf: {'2023': 100}}`, growth 5%, WACC 10%, terminal growth 2%, 2 years). -/
lemma dcfRun_scenario_eq :
    dcfRun dsFcf100 0.05 0.10 0.02 2 =
      some ⟨59325 / 44, 59325 / 44, 100, [105, 441 / 4],
        [1050 / 11, 11025 / 121], 22491 / 16, 562275 / 484, 0, 0⟩ := by
  have hb : resolveBaseFcf dsFcf100 = 100 := rfl
  have h1 : getMetric dsFcf100 "total_debt" = none := rfl
  have h2 : getMetric dsFcf100 "cash" = none := rfl
  simp only [dcfRun, hb, h1, h2, presentValues, projectFcf, discountFrom,
    List.getLast?_cons_cons, List.getLast?_singleton, Option.map_some',
    Option.getD_none, Option.some.injEq, DCFResult.mk.injEq, List.sum_cons,
    List.sum_nil]
  norm_num


/-! ## Claim theorems -/

/-- C1: the spec requires an InvalidParameter domain error when
`wacc <= terminal_growth_rate`; the code performs no such validation.  At
`wacc = 0.02 < terminal_growth_rate = 0.05` the run returns normally with a
finite negative terminal value (-15435/4 = -3858.75) and a negative
enterprise value, exactly the outcome the spec forbids. -/
theorem dcf_accepts_wacc_below_terminal_growth :
    dcfRun dsFcf100 0.05 0.02 0.05 2 =
      some ⟨-3500, -3500, 100, [105, 441 / 4], [1750 / 17, 30625 / 289],
        -15435 / 4, -1071875 / 289, 0, 0⟩ ∧
    (-15435 : ℚ) / 4 < 0 := by
  constructor
  · have hb : resolveBaseFcf dsFcf100 = 100 := rfl
    have h1 : getMetric dsFcf100 "total_debt" = none := rfl
    have h2 : getMetric dsFcf100 "cash" = none := rfl
    simp only [dcfRun, hb, h1, h2, presentValues, projectFcf, discountFrom,
      List.getLast?_cons_cons, List.getLast?_singleton, Option.map_some',
      Option.getD_none, Option.some.injEq, DCFResult.mk.injEq, List.sum_cons,
      List.sum_nil]
    norm_num
  · norm_num

/-- C2 counterexample: on the spec scenario the terminal value computed by the
code is 22491/16 = 1405.6875, not the 1405.3125 stated in the spec. -/
theorem dcf_scenario_terminal_value_differs :
    (dcfRun dsFcf100 0.05 0.10 0.02 2).map DCFResult.terminal_value
      = some (22491 / 16) ∧ (22491 : ℚ) / 16 ≠ 1405.3125 := by
  constructor
  · rw [dcfRun_scenario_eq]; rfl
  · norm_num

/-- C2 (amended): on the spec scenario the code produces
`fcf_forecast = [105, 110.25]`, `present_values = [1050/11, 11025/121]`
(≈ [95.4545, 91.1157]), `terminal_value = 22491/16 = 1405.6875`,
`pv_terminal_value = 562275/484 ≈ 1161.7252`, and
`enterprise_value = 59325/44 ≈ 1348.2955`, which equals the sum of the
present values plus the discounted terminal value. -/
theorem dcf_scenario_values :
    dcfRun dsFcf100 0.05 0.10 0.02 2 =
      some ⟨59325 / 44, 59325 / 44, 100, [105, 441 / 4],
        [1050 / 11, 11025 / 121], 22491 / 16, 562275 / 484, 0, 0⟩ ∧
    [(1050 : ℚ) / 11, 11025 / 121].sum + 562275 / 484 = 59325 / 44 := by
  refine ⟨dcfRun_scenario_eq, ?_⟩
  norm_num [List.sum_cons, List.sum_nil]

/-- C3: for any dataset and LBO parameters with `exit_year >= 1`, the linear
amortization `new_debt - (new_debt / exit_year) * exit_year` is exactly 0,
so the exit equity equals the exit value. -/
theorem lbo_exit_debt_always_zero (d : Dataset) (ey : ℕ) (em tirr : ℚ)
    (hey : 1 ≤ ey) :
    ∃ r, lboRun d ey em tirr = some r ∧ r.exit_debt = 0 ∧
      r.exit_equity = r.exit_value := by
  obtain ⟨m, rfl⟩ : ∃ m, ey = m + 1 := ⟨ey - 1, by omega⟩
  obtain ⟨L, hL⟩ := projectEbitdaFrom_getLast_isSome m (resolveBaseEbitda d) 1
  have hne : ((m + 1 : ℕ) : ℚ) ≠ 0 := Nat.cast_ne_zero.mpr (Nat.succ_ne_zero m)
  refine ⟨lboFinish d (m + 1) em tirr L, ?_, ?_, ?_⟩
  · simp only [lboRun, projectEbitda, hL, Option.map_some']
  · simp only [lboFinish]
    rw [div_mul_cancel₀ _ hne, sub_self]
  · simp only [lboFinish]
    rw [div_mul_cancel₀ _ hne, sub_self, sub_zero]

/-- C3 witness: a concrete instantiation at the empty dataset,
`exit_year = 5`, `exit_multiple = 8`, `target_irr = 0.2`. -/
theorem lbo_exit_debt_always_zero_witness :
    ∃ r, lboRun [] 5 8 (1 / 5) = some r ∧ r.exit_debt = 0 ∧
      r.exit_equity = r.exit_value :=
  lbo_exit_debt_always_zero [] 5 8 (1 / 5) (by norm_num)

/-- C4: the entry multiple is a strict-inequality tier function of
`target_irr`: above 0.25 it is 6.0, in (0.20, 0.25] it is 7.0, in
(0.15, 0.20] it is 8.0, otherwise 9.0; the boundary 0.25 yields 7.0 and
0.2500001 yields 6.0; the EBITDA argument is ignored. -/
theorem lbo_entry_multiple_tiers (t b : ℚ) :
    (0.25 < t → calculateEntryMultiple t b = 6.0) ∧
    (0.20 < t → t ≤ 0.25 → calculateEntryMultiple t b = 7.0) ∧
    (0.15 < t → t ≤ 0.20 → calculateEntryMultiple t b = 8.0) ∧
    (t ≤ 0.15 → calculateEntryMultiple t b = 9.0) ∧
    calculateEntryMultiple 0.25 b = 7.0 ∧
    calculateEntryMultiple 0.2500001 b = 6.0 := by
  refine ⟨?_, ?_, ?_, ?_, ?_, ?_⟩
  · intro h
    simp only [calculateEntryMultiple, if_pos h]
  · intro h1 h2
    have hn : ¬ (t > 0.25) := not_lt.mpr h2
    simp only [calculateEntryMultiple, if_neg hn, if_pos h1]
  · intro h1 h2
    have hn1 : ¬ (t > 0.25) := not_lt.mpr (le_trans h2 (by norm_num))
    have hn2 : ¬ (t > 0.20) := not_lt.mpr h2
    simp only [calculateEntryMultiple, if_neg hn1, if_neg hn2, if_pos h1]
  · intro h
    have hn1 : ¬ (t > 0.25) := not_lt.mpr (le_trans h (by norm_num))
    have hn2 : ¬ (t > 0.20) := not_lt.mpr (le_trans h (by norm_num))
    have hn3 : ¬ (t > 0.15) := not_lt.mpr h
    simp only [calculateEntryMultiple, if_neg hn1, if_neg hn2, if_neg hn3]
  · norm_num [calculateEntryMultiple]
  · norm_num [calculateEntryMultiple]

/-- C4 witness: `target_irr = 0.3 > 0.25` yields entry multiple 6.0. -/
theorem lbo_entry_multiple_tiers_witness :
    calculateEntryMultiple 0.3 1 = 6.0 :=
  (lbo_entry_multiple_tiers 0.3 1).1 (by norm_num)

/-- C5: the base FCF used by the DCF run is resolved in the exact priority
order: first `fcf` value, else `0.6 * ebitda`, else `0.6 * (0.20 * revenue)`,
else the literal default 1000000; `resolveBaseFcf` is total, and every
successful DCF run reports exactly this value as its `base_fcf`. -/
theorem dcf_base_fcf_priority (d : Dataset) :
    (∀ v l, lookupMetric d "fcf" = some (v :: l) → resolveBaseFcf d = v) ∧
    (getMetric d "fcf" = none →
      ∀ e l, lookupMetric d "ebitda" = some (e :: l) →
        resolveBaseFcf d = 0.6 * e) ∧
    (getMetric d "fcf" = none → getMetric d "ebitda" = none →
      ∀ r l, lookupMetric d "revenue" = some (r :: l) →
        resolveBaseFcf d = 0.6 * (0.20 * r)) ∧
    (getMetric d "fcf" = none → getMetric d "ebitda" = none →
      getMetric d "revenue" = none → resolveBaseFcf d = 1000000) ∧
    (∀ (g w tg : ℚ) (n : ℕ) (res : DCFResult),
      dcfRun d g w tg n = some res → res.base_fcf = resolveBaseFcf d) := by
  refine ⟨?_, ?_, ?_, ?_, ?_⟩
  · intro v l h
    have hv : getMetric d "fcf" = some v := by simp [getMetric, h]
    simp [resolveBaseFcf, hv]
  · intro hf e l h
    have he : getMetric d "ebitda" = some e := by simp [getMetric, h]
    simp only [resolveBaseFcf, hf, he]
    ring
  · intro hf he r l h
    have hr : getMetric d "revenue" = some r := by simp [getMetric, h]
    simp only [resolveBaseFcf, hf, he, hr]
    ring
  · intro hf he hr
    simp [resolveBaseFcf, hf, he, hr]
  · intro g w tg n res h
    cases n with
    | zero => simp [dcfRun, projectFcf] at h
    | succ m =>
      rw [dcfRun_succ] at h
      have h2 := Option.some.inj h
      subst h2
      rfl

/-- C5 witness: a dataset with a direct `fcf` entry resolves to it. -/
theorem dcf_base_fcf_priority_witness :
    resolveBaseFcf [("fcf", [7])] = 7 :=
  (dcf_base_fcf_priority [("fcf", [7])]).1 7 [] rfl

/-- C6: the primary method is the first computable candidate in the order
EV/EBITDA, EV/Revenue, P/E; with none computable the result is zeros and
"N/A"; and on the dataset with only `revenue = 200` and
`ev_revenue_multiple = 3` the run reports EV/Revenue with enterprise value
600 and equity value `600 - debt + cash`. -/
theorem comp_primary_method_order (d : Dataset) (me mp mr : ℚ) :
    (∀ e, getMetric d "ebitda" = some e →
      (compRun d me mp mr).primary_method = "EV/EBITDA" ∧
      (compRun d me mp mr).enterprise_value = e * me) ∧
    (getMetric d "ebitda" = none → ∀ r, getMetric d "revenue" = some r →
      (compRun d me mp mr).primary_method = "EV/Revenue" ∧
      (compRun d me mp mr).enterprise_value = r * mr) ∧
    (getMetric d "ebitda" = none → getMetric d "revenue" = none →
      ∀ ni, getMetric d "net_income" = some ni →
        (compRun d me mp mr).primary_method = "P/E" ∧
        (compRun d me mp mr).equity_value = ni * mp) ∧
    (getMetric d "ebitda" = none → getMetric d "revenue" = none →
      getMetric d "net_income" = none →
        (compRun d me mp mr).enterprise_value = 0 ∧
        (compRun d me mp mr).equity_value = 0 ∧
        (compRun d me mp mr).primary_method = "N/A") ∧
    ((compRun dsRev200 me mp 3).primary_method = "EV/Revenue" ∧
      (compRun dsRev200 me mp 3).enterprise_value = 600 ∧
      (compRun dsRev200 me mp 3).equity_value
        = 600 - (compRun dsRev200 me mp 3).debt
          + (compRun dsRev200 me mp 3).cash) := by
  refine ⟨?_, ?_, ?_, ?_, ?_⟩
  · intro e he
    simp [compRun, he]
  · intro hf r hr
    simp [compRun, hf, hr]
  · intro hf hr ni hni
    simp [compRun, hf, hr, hni]
  · intro hf hr hni
    simp [compRun, hf, hr, hni]
  · have he : getMetric dsRev200 "ebitda" = none := rfl
    have hr : getMetric dsRev200 "revenue" = some 200 := rfl
    have hni : getMetric dsRev200 "net_income" = none := rfl
    have hd : getMetric dsRev200 "total_debt" = none := rfl
    have hc : getMetric dsRev200 "cash" = none := rfl
    refine ⟨?_, ?_, ?_⟩ <;> simp [compRun, he, hr, hni, hd, hc] <;> norm_num

/-- C6 witness: a dataset with an `ebitda` entry selects EV/EBITDA. -/
theorem comp_primary_method_order_witness :
    (compRun [("ebitda", [10])] 9 15 3).primary_method = "EV/EBITDA" ∧
    (compRun [("ebitda", [10])] 9 15 3).enterprise_value = 10 * 9 :=
  (comp_primary_method_order [("ebitda", [10])] 9 15 3).1 10 rfl

/-- C7: for any dataset and any `asset_discount` in [0, 1), the asset-based
run satisfies exactly `adjusted_assets = total_assets * (1 - discount)`,
`adjusted_equity = adjusted_assets - total_liabilities`,
`enterprise_value = adjusted_assets` and `equity_value = adjusted_equity`,
where `total_assets`/`total_liabilities` are the resolved values reported in
the result. -/
theorem asset_based_adjustment_identities (d : Dataset) (disc : ℚ)
    (h0 : 0 ≤ disc) (h1 : disc < 1) :
    (assetRun d disc).adjusted_assets
        = (assetRun d disc).total_assets * (1 - disc) ∧
    (assetRun d disc).adjusted_equity
        = (assetRun d disc).adjusted_assets
          - (assetRun d disc).total_liabilities ∧
    (assetRun d disc).enterprise_value = (assetRun d disc).adjusted_assets ∧
    (assetRun d disc).equity_value = (assetRun d disc).adjusted_equity :=
  ⟨rfl, rfl, rfl, rfl⟩

/-- C7 witness: concrete instantiation at the empty dataset and
discount 1/4. -/
theorem asset_based_adjustment_identities_witness :
    (assetRun [] (1 / 4)).adjusted_assets
        = (assetRun [] (1 / 4)).total_assets * (1 - 1 / 4) ∧
    (assetRun [] (1 / 4)).adjusted_equity
        = (assetRun [] (1 / 4)).adjusted_assets
          - (assetRun [] (1 / 4)).total_liabilities ∧
    (assetRun [] (1 / 4)).enterprise_value
        = (assetRun [] (1 / 4)).adjusted_assets ∧
    (assetRun [] (1 / 4)).equity_value
        = (assetRun [] (1 / 4)).adjusted_equity :=
  asset_based_adjustment_identities [] (1 / 4) (by norm_num) (by norm_num)

/-- C8: on an entirely empty dataset the asset-based run defaults to
`total_assets = 1000000`, `total_liabilities = 600000` (60% of the defaulted
assets) and `book_equity = 400000`, for any discount. -/
theorem asset_based_empty_dataset_defaults (disc : ℚ) :
    (assetRun [] disc).total_assets = 1000000 ∧
    (assetRun [] disc).total_liabilities = 600000 ∧
    (assetRun [] disc).book_equity = 400000 := by
  refine ⟨rfl, ?_, ?_⟩
  · show (1000000 : ℚ) * 0.6 = 600000
    norm_num
  · show (1000000 : ℚ) - 1000000 * 0.6 = 400000
    norm_num

/-- C9 (amended with `growth_rate > -1`): for any dataset with positive
resolved base FCF, `wacc > terminal_growth_rate > -wacc`,
`forecast_years >= 1` and growth rates above -1, the DCF run succeeds, its
enterprise value is strictly positive, and it is strictly increasing in the
growth rate. -/
theorem dcf_ev_pos_strictMono (d : Dataset) (g g' w tg : ℚ) (n : ℕ)
    (hbase : 0 < resolveBaseFcf d) (htw : tg < w) (hwt : -w < tg)
    (hn : 1 ≤ n) (hg : -1 < g) (hg' : -1 < g') (hgg : g < g') :
    ∃ r r', dcfRun d g w tg n = some r ∧ dcfRun d g' w tg n = some r' ∧
      0 < r.enterprise_value ∧
      r.enterprise_value < r'.enterprise_value := by
  obtain ⟨m, rfl⟩ : ∃ m, n = m + 1 := ⟨n - 1, by omega⟩
  have h0w : 0 < w := by linarith
  have hw : (1 : ℚ) + w ≠ 0 := by positivity
  have hd : w - tg ≠ 0 := sub_ne_zero.mpr (ne_of_gt htw)
  refine ⟨_, _, dcfRun_succ d g w tg m, dcfRun_succ d g' w tg m, ?_, ?_⟩
  · show 0 < (presentValues w (projectFcf g (resolveBaseFcf d) (m + 1))).sum
        + resolveBaseFcf d * (1 + g) ^ (m + 1) * (1 + tg) / (w - tg)
          / (1 + w) ^ (m + 1)
    rw [ev_closed_eq _ _ _ _ _ hw hd]
    exact evClosed_pos _ _ _ _ _ hbase hg h0w htw
  · show (presentValues w (projectFcf g (resolveBaseFcf d) (m + 1))).sum
        + resolveBaseFcf d * (1 + g) ^ (m + 1) * (1 + tg) / (w - tg)
          / (1 + w) ^ (m + 1)
      < (presentValues w (projectFcf g' (resolveBaseFcf d) (m + 1))).sum
        + resolveBaseFcf d * (1 + g') ^ (m + 1) * (1 + tg) / (w - tg)
          / (1 + w) ^ (m + 1)
    rw [ev_closed_eq _ _ _ _ _ hw hd, ev_closed_eq _ _ _ _ _ hw hd]
    exact evClosed_lt_evClosed _ _ _ _ _ _ hbase hg hgg h0w htw

/-- C9 witness: concrete instantiation on the scenario dataset with growth
rates 0 and 1/10. -/
theorem dcf_ev_pos_strictMono_witness :
    ∃ r r', dcfRun dsFcf100 0 0.10 0.02 1 = some r ∧
      dcfRun dsFcf100 (1 / 10) 0.10 0.02 1 = some r' ∧
      0 < r.enterprise_value ∧
      r.enterprise_value < r'.enterprise_value :=
  dcf_ev_pos_strictMono dsFcf100 0 (1 / 10) 0.10 0.02 1
    (by rw [show resolveBaseFcf dsFcf100 = 100 from rfl]; norm_num)
    (by norm_num) (by norm_num) (by norm_num) (by norm_num) (by norm_num)
    (by norm_num)

/-- C9 counterexample: the claim as stated (with no lower bound on the
growth rate) is false: the scenario dataset has positive base FCF and valid
WACC/terminal-growth parameters, yet at growth rate -2 the enterprise value
is -1250 < 0. -/
theorem dcf_ev_negative_at_growth_minus_two :
    0 < resolveBaseFcf dsFcf100 ∧
    (dcfRun dsFcf100 (-2) 0.10 0.02 1).map DCFResult.enterprise_value
      = some (-1250) ∧
    (-1250 : ℚ) < 0 := by
  refine ⟨?_, ?_, by norm_num⟩
  · rw [show resolveBaseFcf dsFcf100 = 100 from rfl]
    norm_num
  · have hb : resolveBaseFcf dsFcf100 = 100 := rfl
    have h1 : getMetric dsFcf100 "total_debt" = none := rfl
    have h2 : getMetric dsFcf100 "cash" = none := rfl
    have heq : dcfRun dsFcf100 (-2) 0.10 0.02 1 =
        some ⟨-1250, -1250, 100, [-100], [-1000 / 11], -1275, -12750 / 11,
          0, 0⟩ := by
      simp only [dcfRun, hb, h1, h2, presentValues, projectFcf, discountFrom,
        List.getLast?_singleton, Option.map_some', Option.getD_none,
        Option.some.injEq, DCFResult.mk.injEq, List.sum_cons, List.sum_nil]
      norm_num
    rw [heq]
    rfl

/-- C10: every invocation of `calculate_enterprise_value` fails with a
`NameError`: the name `discount_rate` read on its first executable line is
bound neither in the function scope nor at module level, so the function has
no successful return path for any input. -/
theorem calculate_enterprise_value_always_name_error
    (pv_fcf : List ℚ) (terminal_value : ℚ) (final_year : ℕ) :
    calculateEnterpriseValue pv_fcf terminal_value final_year
      = Except.error "NameError: name discount_rate is not defined" := rfl


end ValuIt
